import Mathlib

/-!
Verification of the tiered NetCDF artifact resolver of the
NetCDF_on-demand repository (canonical source: `netcdf_ondemand.py`;
line numbers below refer to that file).

Modelling conventions:
* Python strings are modelled as `List Char` (a string literal `s` is
  embedded as `s.data`); filesystem paths as lists of path segments.
* Timestamps are natural numbers of seconds since the epoch; file
  modification times are assumed not to lie in the future of the clock.
* Every filesystem-reading method becomes a pure function over an explicit
  state record carrying exactly the filesystem facts the method consults;
  its filesystem writes become the state it returns.
-/

namespace NetcdfOndemand

/-- `get_file_age_in_days` (lines 62-78): the age of a file in whole days,
computed from its last-modification time and the current clock, both in
seconds since the epoch.  `timedelta.days` of a non-negative interval is
its length in seconds floor-divided by 86400. -/
def get_file_age_in_days (now last_modified_time : Nat) : Nat :=
  (now - last_modified_time) / 86400

/-- The exceptions `Product._define_operational_path` (lines 111-132) can
raise: `ValueError("Invalid product name format ...")` when the date regex
finds no match, the `IndexError` of `split('_')[1]` on an S1-family name
with no second token, and `ValueError("Unsupported product type ...")`. -/
inductive ParseError where
  | malformedIdentifier
  | missingMode
  | unsupportedPlatform
deriving DecidableEq

/-- One attempt of the regex `(\d{4})(\d{2})(\d{2})T` at the start of the
remaining input: eight ASCII digits followed by `T`, captured as year,
month and day groups. -/
def matchDateHere : List Char → Option (List Char × List Char × List Char)
  | y1 :: y2 :: y3 :: y4 :: m1 :: m2 :: d1 :: d2 :: t :: _ =>
    if y1.isDigit && y2.isDigit && y3.isDigit && y4.isDigit &&
        m1.isDigit && m2.isDigit && d1.isDigit && d2.isDigit && t == 'T' then
      some ([y1, y2, y3, y4], [m1, m2], [d1, d2])
    else
      none
  | _ => none

/-- `re.search` of the date pattern (line 118): the leftmost match, found by
scanning start positions left to right. -/
def searchDate : List Char → Option (List Char × List Char × List Char)
  | [] => none
  | c :: rest =>
    match matchDateHere (c :: rest) with
    | some m => some m
    | none => searchDate rest

/-- `Product._define_operational_path` (lines 111-132): the canonical
Operational-tier path of the artifact as a segment list (the configured
`operational_NetCDFs_path` root followed by the relative segments and the
file name), or the exception raised.  `product_type` is the first
`'_'`-separated token of the raw name; the date comes from the leftmost
regex match; S1-family names contribute the beam (second token) as an
extra segment, S2-family names do not. -/
def define_operational_path (operational_NetCDFs_path : List (List Char))
    (product_name : List Char) : Except ParseError (List (List Char)) :=
  let product_type := (product_name.splitOn '_').headD []
  match searchDate product_name with
  | none => .error .malformedIdentifier
  | some (year, month, day) =>
    if "S1".data.isPrefixOf product_type then
      match (product_name.splitOn '_')[1]? with
      | none => .error .missingMode
      | some beam =>
        .ok (operational_NetCDFs_path ++
          [product_type, year, month, day, beam, product_name ++ ".nc".data])
    else if "S2".data.isPrefixOf product_type then
      .ok (operational_NetCDFs_path ++
        [product_type, year, month, day, product_name ++ ".nc".data])
    else
      .error .unsupportedPlatform

/-- A file on disk: an abstract content identity and the last-modification
time in seconds since the epoch. -/
structure File where
  content : Nat
  mtime : Nat
deriving DecidableEq

/-- The filesystem facts `Product.netcdf_file_exists` consults for one
product, together with the `Product` attributes it reads:
* `product_name` — `self.product_name`;
* `request_rel` — the segments of `request_dir` relative to
  `opendap_base_dir` (`request_dir = opendap_base_dir / request_rel`);
* `tmp_product` — the file at `tmp_product_path`
  (`request_dir/<name>.nc`), if present;
* `operational_product` — the file at `operational_product_path`,
  if present;
* `pool` — the directories `os.walk(opendap_netcdf_ondemand_dir)` visits,
  in walk order, each entry holding the artifact `<name>.nc` found in that
  directory or `none`;
* `now` — the current clock, which is the modification time
  `shutil.copyfile` and `Path.touch` stamp onto the files they write. -/
structure ProductState where
  product_name : List Char
  request_rel : List (List Char)
  tmp_product : Option File
  operational_product : Option File
  pool : List (Option File)
  now : Nat
deriving DecidableEq

/-- `Product._construct_opendap_path` (lines 168-177): the fixed THREDDS
base URL, then the request directory's path relative to the opendap base
directory, a `/`, and `<name>.nc.html`.  (`urljoin` applied to a base
ending in `/` and a bare file name as relative reference concatenates
the two.) -/
def construct_opendap_path (request_rel : List (List Char))
    (product_name : List Char) : List Char :=
  "https://nbstds.met.no/thredds/dodsC/".data ++
    List.intercalate "/".data request_rel ++ "/".data ++
    product_name ++ ".nc.html".data

/-- `Product.find_product_from_previous_requests` (lines 179-190): the
first directory in walk order containing `<name>.nc`, returned as its walk
position together with the file found there; `none` when the walk finds
nothing. -/
def find_product_from_previous_requests :
    List (Option File) → Option (Nat × File)
  | [] => none
  | some f :: _ => some (0, f)
  | none :: rest =>
    (find_product_from_previous_requests rest).map fun p => (p.1 + 1, p.2)

/-- The outcome of one `Product.netcdf_file_exists` call: the boolean the
method returns, the filesystem state after its copies and touch, and the
`opendap_product_path` attribute it assigns. -/
structure ResolveResult where
  found : Bool
  state : ProductState
  opendap_product_path : List Char
deriving DecidableEq

/-- `Product.netcdf_file_exists` (lines 134-166):
1. the file at `tmp_product_path` exists — return `True`, no copy;
2. else the file at `operational_product_path` exists — `copyfile` it to
   `tmp_product_path` (fresh modification time `now`) and return `True`;
3. else the walk of `find_product_from_previous_requests` finds a copy —
   `copyfile` it to `tmp_product_path`, then `touch` the found file in
   place (its modification time becomes `now`), and return `True`;
4. else return `False`.
`opendap_product_path` is assigned the same way on every branch. -/
def netcdf_file_exists (s : ProductState) : ResolveResult :=
  match s.tmp_product with
  | some _ =>
    { found := true, state := s,
      opendap_product_path := construct_opendap_path s.request_rel s.product_name }
  | none =>
    match s.operational_product with
    | some f =>
      { found := true,
        state := { s with tmp_product := some { content := f.content, mtime := s.now } },
        opendap_product_path := construct_opendap_path s.request_rel s.product_name }
    | none =>
      match find_product_from_previous_requests s.pool with
      | some (i, f) =>
        { found := true,
          state := { s with
            tmp_product := some { content := f.content, mtime := s.now },
            pool := s.pool.set i (some { content := f.content, mtime := s.now }) },
          opendap_product_path := construct_opendap_path s.request_rel s.product_name }
      | none =>
        { found := false, state := s,
          opendap_product_path := construct_opendap_path s.request_rel s.product_name }

/-- Whether `Product.remove_safe` deletes a directory entry (lines
287-297): its name starts with the product name and does not end in
`.nc`.  Matching entries are deleted whether they are files or
directories. -/
def remove_safe_deletes (product_name entry : List Char) : Bool :=
  product_name.isPrefixOf entry && !(".nc".data.isSuffixOf entry)

/-- `Product.remove_safe` (lines 281-297) acting on the listing of the
request directory: the listing that remains after deleting every entry
`remove_safe_deletes` selects. -/
def remove_safe (product_name : List Char) (listing : List (List Char)) :
    List (List Char) :=
  listing.filter fun entry => !remove_safe_deletes product_name entry

/-- The success/failure accumulators of `main` (lines 336-337). -/
structure MainState where
  opendap_links : List (List Char)
  failures : List (List Char)
deriving DecidableEq

/-- One iteration of the per-product loop of `main` (lines 339-360), for a
product whose `Product` construction succeeded.  `production` is the
combined filesystem effect of the external download/unzip/convert
collaborators; `cleanup_raises` says whether `remove_safe` raises an
`OSError` when it runs (a successful `remove_safe` deletes only
non-`.nc` entries of the request directory, which this state does not
track, so it leaves the state unchanged).  The bare `except:` of lines
359-360 turns any exception escaping the `try` block into an entry of
`failures`; note that on the hit path the opendap link is appended
(line 344) before `remove_safe` runs (line 345). -/
def process_product (s : ProductState)
    (production : ProductState → ProductState) (cleanup_raises : Bool)
    (ms : MainState) : MainState :=
  if "S1".data.isPrefixOf s.product_name || "S2".data.isPrefixOf s.product_name then
    let r := netcdf_file_exists s
    if r.found then
      let ms1 := { ms with opendap_links := ms.opendap_links ++ [r.opendap_product_path] }
      if cleanup_raises then
        { ms1 with failures := ms1.failures ++ [s.product_name] }
      else
        ms1
    else
      if cleanup_raises then
        { ms with failures := ms.failures ++ [s.product_name] }
      else
        let r2 := netcdf_file_exists (production r.state)
        if r2.found then
          { ms with opendap_links := ms.opendap_links ++ [r2.opendap_product_path] }
        else
          { ms with failures := ms.failures ++ [s.product_name] }
  else
    { ms with failures := ms.failures ++ [s.product_name] }

/-- The three storage tiers of the specification (§3 StorageTier). -/
inductive StorageTier where
  | RequestScratch
  | Operational
  | SiblingRequestPool
deriving DecidableEq

/-- Whether a tier holds the artifact in state `s`: the existence checks
the resolver performs per tier. -/
def tierMatches (s : ProductState) : StorageTier → Bool
  | .RequestScratch => s.tmp_product.isSome
  | .Operational => s.operational_product.isSome
  | .SiblingRequestPool => (find_product_from_previous_requests s.pool).isSome

/-- The first matching tier in the specification's strict order
RequestScratch, Operational, SiblingRequestPool. -/
def firstMatchingTier (s : ProductState) : Option StorageTier :=
  [StorageTier.RequestScratch, StorageTier.Operational,
    StorageTier.SiblingRequestPool].find? (tierMatches s)

/-- The resolver as the specification words it (§4.4), stated as a second
definition to be compared with `netcdf_file_exists`: check the tiers in
strict order and short-circuit with a Hit on the first match — a
RequestScratch hit is returned directly with no copy, an Operational hit
is mirrored into RequestScratch, a sibling-pool hit is copied into
RequestScratch and the sibling copy touched in place — and report a Miss
only when no tier matched.  (The inner `none` arms are unreachable: the
matched tier's slot is full by definition of `firstMatchingTier`.) -/
def resolveSpec (s : ProductState) : ResolveResult :=
  let url := construct_opendap_path s.request_rel s.product_name
  match firstMatchingTier s with
  | some .RequestScratch => { found := true, state := s, opendap_product_path := url }
  | some .Operational =>
    match s.operational_product with
    | some f =>
      { found := true,
        state := { s with tmp_product := some { content := f.content, mtime := s.now } },
        opendap_product_path := url }
    | none => { found := false, state := s, opendap_product_path := url }
  | some .SiblingRequestPool =>
    match find_product_from_previous_requests s.pool with
    | some (i, f) =>
      { found := true,
        state := { s with
          tmp_product := some { content := f.content, mtime := s.now },
          pool := s.pool.set i (some { content := f.content, mtime := s.now }) },
        opendap_product_path := url }
    | none => { found := false, state := s, opendap_product_path := url }
  | none => { found := false, state := s, opendap_product_path := url }

deriving instance DecidableEq for Except

/-- A state with an Operational copy 40 days old (modification time 0,
clock at day 40), nothing in RequestScratch, and an empty sibling pool:
the input refuting claim C1. -/
def c1_state : ProductState :=
  { product_name := "S1A_IW_20230101T000000_A".data,
    request_rel := ["NBS".data, "netcdf_ondemand".data, "req1".data],
    tmp_product := none,
    operational_product := some { content := 7, mtime := 0 },
    pool := [],
    now := 86400 * 40 }

/-- A state with a fresh Operational copy (age 0 days) and an empty
RequestScratch slot: the input refuting claim C3. -/
def c3_state : ProductState :=
  { product_name := "S2A_MSIL1C_20230615T101031_B".data,
    request_rel := ["NBS".data, "netcdf_ondemand".data, "req3".data],
    tmp_product := none,
    operational_product := some { content := 3, mtime := 86400 * 100 },
    pool := [],
    now := 86400 * 100 }

/-- A state where only the second sibling-pool directory holds the
artifact: the concrete input for claim C4's witness. -/
def c4_state : ProductState :=
  { product_name := "S1A_EW_20220301T000000_C".data,
    request_rel := ["NBS".data, "netcdf_ondemand".data, "req4".data],
    tmp_product := none,
    operational_product := none,
    pool := [none, some { content := 5, mtime := 10 }],
    now := 99 }

/-- A state whose RequestScratch slot already holds the artifact (so the
resolver hits immediately): the concrete input for claim C7. -/
def c7_state : ProductState :=
  { product_name := "S1A_IW_20230101T000000_D".data,
    request_rel := ["NBS".data, "netcdf_ondemand".data, "req7".data],
    tmp_product := some { content := 1, mtime := 0 },
    operational_product := none,
    pool := [],
    now := 100 }

/-- C1 counterexample: with a nominal `operationalWindowDays = 30` and an
Operational copy aged 40 days (`ageInDays >= operationalWindowDays`), both
other tiers empty, `netcdf_file_exists` still returns a Hit referencing
the expired Operational copy — its content is copied into RequestScratch —
instead of treating the entry as absent and reporting a Miss (the sibling
pool is empty, so falling through would have missed). -/
theorem claim_C1_cex :
    30 ≤ get_file_age_in_days c1_state.now
        ((c1_state.operational_product.getD { content := 0, mtime := 0 }).mtime) ∧
    c1_state.pool = [] ∧
    (netcdf_file_exists c1_state).found = true ∧
    (netcdf_file_exists c1_state).state.tmp_product =
      some { content := 7, mtime := c1_state.now } := by
  decide

/-- C1 amended: the resolver applies no retention check at all — for every
state whose RequestScratch slot is empty and whose Operational slot holds a
file, and any window `W` with `W ≤ ageInDays` (the claim's expiry guard),
`netcdf_file_exists` returns a Hit and copies the Operational file's
content into RequestScratch instead of treating the entry as absent. -/
theorem claim_C1_amended (s : ProductState) (f : File) (W : Nat)
    (h1 : s.tmp_product = none) (h2 : s.operational_product = some f)
    (_hage : W ≤ get_file_age_in_days s.now f.mtime) :
    (netcdf_file_exists s).found = true ∧
    (netcdf_file_exists s).state.tmp_product =
      some { content := f.content, mtime := s.now } := by
  simp [netcdf_file_exists, h1, h2]

/-- C1 witness: the amended claim instantiated at `c1_state` with window
30 (age 40 days). -/
theorem claim_C1_witness :
    (netcdf_file_exists c1_state).found = true ∧
    (netcdf_file_exists c1_state).state.tmp_product =
      some { content := 7, mtime := c1_state.now } :=
  claim_C1_amended c1_state { content := 7, mtime := 0 } 30 rfl rfl (by decide)

/-- C2: `netcdf_file_exists` coincides with the specification's resolver:
the tiers are checked in the strict order RequestScratch, Operational,
SiblingRequestPool, short-circuiting with a Hit on the first match (a
RequestScratch hit is returned directly with no copy), and a Miss is
reported exactly when no tier matched. -/
theorem claim_C2 (s : ProductState) : netcdf_file_exists s = resolveSpec s := by
  rcases s with ⟨name, rel, tmp, op, pool, now⟩
  cases tmp with
  | some f => rfl
  | none =>
    cases op with
    | some f => rfl
    | none =>
      cases hp : find_product_from_previous_requests pool with
      | some p =>
        obtain ⟨i, f⟩ := p
        simp [netcdf_file_exists, resolveSpec, firstMatchingTier, tierMatches,
          List.find?, hp]
      | none =>
        simp [netcdf_file_exists, resolveSpec, firstMatchingTier, tierMatches,
          List.find?, hp]

/-- C3 counterexample: an Operational hit well inside the retention window
(`ageInDays = 0 < 30 = operationalWindowDays`, remaining lifetime
`30 ≥ 5 = scratchWindowDays`) is NOT served in place: `netcdf_file_exists`
copies it into RequestScratch, so the RequestScratch tier is changed by
the hit, contradicting the claimed no-copy Serve behaviour. -/
theorem claim_C3_cex :
    get_file_age_in_days c3_state.now
        ((c3_state.operational_product.getD { content := 0, mtime := 0 }).mtime) < 30 ∧
    5 ≤ 30 - get_file_age_in_days c3_state.now
        ((c3_state.operational_product.getD { content := 0, mtime := 0 }).mtime) ∧
    (netcdf_file_exists c3_state).found = true ∧
    c3_state.tmp_product = none ∧
    (netcdf_file_exists c3_state).state.tmp_product ≠ none := by
  decide

/-- C3 amended: every Operational hit — whatever the artifact's age — is
mirrored: `netcdf_file_exists` copies the Operational file into
RequestScratch (fresh modification time `now`) and returns a Hit; the
code has no Serve-without-copy path. -/
theorem claim_C3_amended (s : ProductState) (f : File)
    (h1 : s.tmp_product = none) (h2 : s.operational_product = some f) :
    (netcdf_file_exists s).found = true ∧
    (netcdf_file_exists s).state =
      { s with tmp_product := some { content := f.content, mtime := s.now } } := by
  simp [netcdf_file_exists, h1, h2]

/-- C3 witness: the amended claim instantiated at `c3_state`. -/
theorem claim_C3_witness :
    (netcdf_file_exists c3_state).found = true ∧
    (netcdf_file_exists c3_state).state =
      { c3_state with tmp_product := some { content := 3, mtime := c3_state.now } } :=
  claim_C3_amended c3_state { content := 3, mtime := 86400 * 100 } rfl rfl

/-- The sibling-pool walk is sound: the position it reports really holds
the file it returns. -/
theorem find_pool_sound (pool : List (Option File)) (i : Nat) (f : File)
    (h : find_product_from_previous_requests pool = some (i, f)) :
    pool[i]? = some (some f) := by
  induction pool generalizing i with
  | nil => simp [find_product_from_previous_requests] at h
  | cons hd tl ih =>
    cases hd with
    | some g =>
      simp [find_product_from_previous_requests] at h
      obtain ⟨hi, hf⟩ := h
      subst hi
      subst hf
      simp
    | none =>
      cases htl : find_product_from_previous_requests tl with
      | none => simp [find_product_from_previous_requests, htl] at h
      | some p =>
        obtain ⟨j, g⟩ := p
        simp [find_product_from_previous_requests, htl] at h
        obtain ⟨hi, hf⟩ := h
        subst hi
        subst hf
        simpa using ih j htl

/-- C4: when the artifact is absent from RequestScratch and Operational
but the sibling-pool walk finds it at position `i`, `netcdf_file_exists`
returns a Hit, copies the found file's content into this request's
RequestScratch, and touches the sibling copy in place: before the call
position `i` holds the file with its old modification time, afterwards it
holds the same content with modification time `now`. -/
theorem claim_C4 (s : ProductState) (i : Nat) (f : File)
    (h1 : s.tmp_product = none) (h2 : s.operational_product = none)
    (h3 : find_product_from_previous_requests s.pool = some (i, f)) :
    (netcdf_file_exists s).found = true ∧
    (netcdf_file_exists s).state.tmp_product =
      some { content := f.content, mtime := s.now } ∧
    s.pool[i]? = some (some f) ∧
    (netcdf_file_exists s).state.pool[i]? =
      some (some { content := f.content, mtime := s.now }) := by
  have hbefore := find_pool_sound s.pool i f h3
  have hlen : i < s.pool.length := (List.getElem?_eq_some.mp hbefore).1
  refine ⟨?_, ?_, hbefore, ?_⟩
  · simp [netcdf_file_exists, h1, h2, h3]
  · simp [netcdf_file_exists, h1, h2, h3]
  · simp [netcdf_file_exists, h1, h2, h3, List.getElem?_set, hlen]

/-- C4 witness: the claim instantiated at `c4_state`, whose pool holds the
artifact (content 5, modification time 10) in its second directory. -/
theorem claim_C4_witness :
    (netcdf_file_exists c4_state).found = true ∧
    (netcdf_file_exists c4_state).state.tmp_product =
      some { content := 5, mtime := c4_state.now } ∧
    c4_state.pool[1]? = some (some { content := 5, mtime := 10 }) ∧
    (netcdf_file_exists c4_state).state.pool[1]? =
      some (some { content := 5, mtime := c4_state.now }) :=
  claim_C4 c4_state 1 { content := 5, mtime := 10 } rfl rfl (by decide)

/-- C5 counterexample: the entry `<raw>_B.nc` is prefixed by the raw
identifier and is not the artifact file `<raw>.nc`, yet `remove_safe`
keeps it (it ends in `.nc`), so it is still present after cleanup —
against the claim that every prefixed entry except the artifact file is
removed. -/
theorem claim_C5_cex :
    ("S1A_IW_20230101T000000".data).isPrefixOf
      "S1A_IW_20230101T000000_B.nc".data = true ∧
    "S1A_IW_20230101T000000_B.nc".data ≠
      "S1A_IW_20230101T000000".data ++ ".nc".data ∧
    "S1A_IW_20230101T000000_B.nc".data ∈
      remove_safe "S1A_IW_20230101T000000".data
        ["S1A_IW_20230101T000000.zip".data,
          "S1A_IW_20230101T000000_B.nc".data,
          "S1A_IW_20230101T000000.nc".data] := by
  decide

/-- C5 amended: cleanup removes every entry whose name is prefixed by the
raw identifier and does not end in `.nc`; prefixed entries ending in
`.nc` (the artifact file among them) are kept. -/
theorem claim_C5_amended (product_name : List Char) (listing : List (List Char))
    (entry : List Char) (hpre : product_name.isPrefixOf entry = true)
    (hnc : ".nc".data.isSuffixOf entry = false) :
    entry ∉ remove_safe product_name listing := by
  simp [remove_safe, remove_safe_deletes, List.mem_filter, hpre, hnc]

/-- C5 witness: the amended claim instantiated at the raw archive entry
`<raw>.zip`, absent after cleanup. -/
theorem claim_C5_witness :
    "S1A_IW_20230101T000000.zip".data ∉
      remove_safe "S1A_IW_20230101T000000".data
        ["S1A_IW_20230101T000000.zip".data, "S1A_IW_20230101T000000.nc".data] :=
  claim_C5_amended "S1A_IW_20230101T000000".data
    ["S1A_IW_20230101T000000.zip".data, "S1A_IW_20230101T000000.nc".data]
    "S1A_IW_20230101T000000.zip".data (by decide) (by decide)

/-- C6: cleanup is idempotent — running `remove_safe` twice yields the
same directory listing as running it once — and the artifact file
`<raw>.nc` is still present afterwards whenever it was present before. -/
theorem claim_C6 (product_name : List Char) (listing : List (List Char)) :
    remove_safe product_name (remove_safe product_name listing) =
      remove_safe product_name listing ∧
    ((product_name ++ ".nc".data) ∈ listing →
      (product_name ++ ".nc".data) ∈ remove_safe product_name listing) := by
  constructor
  · simp [remove_safe, List.filter_filter]
  · intro hmem
    have hsuf : ".nc".data.isSuffixOf (product_name ++ ".nc".data) = true := by
      rw [ List.isSuffixOf_iff_suffix]
      exact List.suffix_append product_name ".nc".data
    simp [remove_safe, remove_safe_deletes, List.mem_filter, hmem, hsuf]

/-- C6 witness: the claim instantiated at a listing holding the artifact
and its raw archive. -/
theorem claim_C6_witness :
    (remove_safe "S2B_MSIL1C_20240101T0_X".data
        (remove_safe "S2B_MSIL1C_20240101T0_X".data
          ["S2B_MSIL1C_20240101T0_X.nc".data, "S2B_MSIL1C_20240101T0_X.zip".data]) =
      remove_safe "S2B_MSIL1C_20240101T0_X".data
        ["S2B_MSIL1C_20240101T0_X.nc".data, "S2B_MSIL1C_20240101T0_X.zip".data]) ∧
    ("S2B_MSIL1C_20240101T0_X".data ++ ".nc".data) ∈
      remove_safe "S2B_MSIL1C_20240101T0_X".data
        ["S2B_MSIL1C_20240101T0_X.nc".data, "S2B_MSIL1C_20240101T0_X.zip".data] :=
  ⟨(claim_C6 "S2B_MSIL1C_20240101T0_X".data
      ["S2B_MSIL1C_20240101T0_X.nc".data, "S2B_MSIL1C_20240101T0_X.zip".data]).1,
    (claim_C6 "S2B_MSIL1C_20240101T0_X".data
      ["S2B_MSIL1C_20240101T0_X.nc".data, "S2B_MSIL1C_20240101T0_X.zip".data]).2
      (by decide)⟩

/-- C7 counterexample: the artifact is already in place (RequestScratch
hit, so the tier resolution succeeded and its opendap link was recorded),
then `remove_safe` raises — and the per-product bare `except:` records the
identifier in the failures list, against the claim that an identifier is
never recorded as failed because of a cleanup error. -/
theorem claim_C7_cex :
    (netcdf_file_exists c7_state).found = true ∧
    (process_product c7_state id true
        { opendap_links := [], failures := [] }).failures =
      [c7_state.product_name] ∧
    (process_product c7_state id true
        { opendap_links := [], failures := [] }).opendap_links =
      [(netcdf_file_exists c7_state).opendap_product_path] := by
  decide

/-- C7 amended: a cleanup failure after the artifact is in place is not
swallowed: the exception escapes `remove_safe`, is caught by the
per-product catch-all, and the identifier is appended to the failures
list (while the opendap link already appended on the hit path stays in
the successes). -/
theorem claim_C7_amended (s : ProductState) (production : ProductState → ProductState)
    (ms : MainState)
    (hplat : ("S1".data.isPrefixOf s.product_name ||
      "S2".data.isPrefixOf s.product_name) = true)
    (hhit : (netcdf_file_exists s).found = true) :
    process_product s production true ms =
      { opendap_links := ms.opendap_links ++ [(netcdf_file_exists s).opendap_product_path],
        failures := ms.failures ++ [s.product_name] } := by
  simp [process_product, hplat, hhit]

/-- C7 witness: the amended claim instantiated at `c7_state`. -/
theorem claim_C7_witness :
    process_product c7_state id true { opendap_links := [], failures := [] } =
      { opendap_links := [(netcdf_file_exists c7_state).opendap_product_path],
        failures := [c7_state.product_name] } :=
  claim_C7_amended c7_state id { opendap_links := [], failures := [] }
    (by decide) rfl

/-- C8 counterexample: `"XYZ_A"` has no date token AND an unrecognized
leading token, yet parsing fails with `MalformedIdentifier` (the date
check runs first), not with `UnsupportedPlatform` as the claim's second
clause demands for every raw string with an unrecognized leading token. -/
theorem claim_C8_cex :
    ("S1".data.isPrefixOf (("XYZ_A".data.splitOn '_').headD []) = false) ∧
    ("S2".data.isPrefixOf (("XYZ_A".data.splitOn '_').headD []) = false) ∧
    searchDate "XYZ_A".data = none ∧
    define_operational_path [] "XYZ_A".data = .error .malformedIdentifier ∧
    define_operational_path [] "XYZ_A".data ≠ .error .unsupportedPlatform := by
  decide

/-- C8 amended: with no date token the parse fails with
`MalformedIdentifier` whatever the leading token; `UnsupportedPlatform`
is raised exactly when a date token IS present and the leading token
matches neither recognized family prefix.  In both cases the result is an
error, so no (partial) identifier or path is produced. -/
theorem claim_C8_amended (root : List (List Char)) (name : List Char) :
    (searchDate name = none →
      define_operational_path root name = .error .malformedIdentifier) ∧
    (∀ y m d, searchDate name = some (y, m, d) →
      ¬ ("S1".data <+: (name.splitOn '_').headD []) →
      ¬ ("S2".data <+: (name.splitOn '_').headD []) →
      define_operational_path root name = .error .unsupportedPlatform) := by
  constructor
  · intro h
    simp [define_operational_path, h]
  · intro y m d h h1 h2
    simp only [List.headD_eq_head?_getD] at h1 h2
    simp [define_operational_path, h, h1, h2]

/-- C8 witness: the amended claim instantiated at a dateless raw string
and at a dated raw string of an unrecognized platform family. -/
theorem claim_C8_witness :
    define_operational_path [] "QQQ".data = .error .malformedIdentifier ∧
    define_operational_path [] "XYZ_20230101T0".data = .error .unsupportedPlatform :=
  ⟨(claim_C8_amended [] "QQQ".data).1 (by decide),
    (claim_C8_amended [] "XYZ_20230101T0".data).2 "2023".data "01".data "01".data
      (by decide) (by decide) (by decide)⟩

/-- C9: the derived canonical path is
`root/platform/year/month/day/mode/<raw>.nc` for the S1 family (which
carries the mode token) and `root/platform/year/month/day/<raw>.nc` for
the S2 family; in particular the identifier
`S1A_IW_20230101T000000_...` against root `/data` yields
`/data/S1A/2023/01/01/IW/S1A_IW_20230101T000000_....nc`. -/
theorem claim_C9 :
    (∀ root name y m d beam, searchDate name = some (y, m, d) →
      "S1".data <+: (name.splitOn '_').headD [] →
      (name.splitOn '_')[1]? = some beam →
      define_operational_path root name =
        .ok (root ++ [(name.splitOn '_').headD [], y, m, d, beam,
          name ++ ".nc".data])) ∧
    (∀ root name y m d, searchDate name = some (y, m, d) →
      ¬ ("S1".data <+: (name.splitOn '_').headD []) →
      "S2".data <+: (name.splitOn '_').headD [] →
      define_operational_path root name =
        .ok (root ++ [(name.splitOn '_').headD [], y, m, d,
          name ++ ".nc".data])) ∧
    define_operational_path ["data".data] "S1A_IW_20230101T000000_...".data =
      .ok ["data".data, "S1A".data, "2023".data, "01".data, "01".data, "IW".data,
        "S1A_IW_20230101T000000_....nc".data] := by
  refine ⟨?_, ?_, ?_⟩
  · intro root name y m d beam h hS1 hbeam
    simp only [List.headD_eq_head?_getD] at hS1
    simp [define_operational_path, h, hS1, hbeam]
  · intro root name y m d h hS1 hS2
    simp only [List.headD_eq_head?_getD] at hS1 hS2
    simp [define_operational_path, h, hS1, hS2]
  · rfl

/-- C9 witness: the S1-family clause of the claim instantiated at the
specification's concrete example. -/
theorem claim_C9_witness :
    define_operational_path ["data".data] "S1A_IW_20230101T000000_...".data =
      .ok (["data".data] ++ ["S1A".data, "2023".data, "01".data, "01".data,
        "IW".data, "S1A_IW_20230101T000000_...".data ++ ".nc".data]) :=
  claim_C9.1 ["data".data] "S1A_IW_20230101T000000_...".data
    "2023".data "01".data "01".data "IW".data (by decide) (by decide) (by decide)

/-- C10: on every `netcdf_file_exists` call — hit or miss, whatever tier
matched — the assigned `opendap_product_path` equals the fixed THREDDS
base URL followed by the request directory's path relative to the opendap
base directory, a slash, and `<raw>.nc.html`; it depends only on the
request directory and the product name, so it always points into the
current request's scratch directory and never at the Operational or a
sibling location. -/
theorem claim_C10 (s : ProductState) :
    (netcdf_file_exists s).opendap_product_path =
      "https://nbstds.met.no/thredds/dodsC/".data ++
        List.intercalate "/".data s.request_rel ++ "/".data ++
        s.product_name ++ ".nc.html".data := by
  rcases s with ⟨name, rel, tmp, op, pool, now⟩
  cases tmp with
  | some f => rfl
  | none =>
    cases op with
    | some f => rfl
    | none =>
      cases hp : find_product_from_previous_requests pool with
      | some p =>
        obtain ⟨i, f⟩ := p
        simp [netcdf_file_exists, construct_opendap_path, hp]
      | none => simp [netcdf_file_exists, construct_opendap_path, hp]

end NetcdfOndemand
